import Mathlib

/-!
Shallow embedding of the dotvanity vanity-address generator (src/main.rs)
and proofs about its matcher, validation, worker loop, aggregator loop,
pool lifecycle and verbose reporting.

Addresses are modelled as `List Char`; the opaque cryptographic wallet
generation (sr25519 keypairs, SS58 encoding) is treated as an external
oracle: wallets arrive on input streams.  Channels are modelled as lists
of events/results in arrival order.
-/

namespace Dotvanity

/-- The SS58 alphabet exactly as listed in `is_valid_ss58_char` in src/main.rs. -/
def ss58_chars : List Char :=
  ['1', '2', '3', '4', '5', '6', '7', '8', '9', 'A', 'B', 'C', 'D', 'E', 'F', 'G', 'H', 'J',
   'K', 'L', 'M', 'N', 'P', 'Q', 'R', 'S', 'T', 'U', 'V', 'W', 'X', 'Y', 'Z', 'a', 'b', 'c',
   'd', 'e', 'f', 'g', 'h', 'i', 'j', 'k', 'm', 'n', 'o', 'p', 'q', 'r', 's', 't', 'u', 'v',
   'w', 'x', 'y', 'z']

/-- `is_valid_ss58_char` from src/main.rs. -/
def is_valid_ss58_char (c : Char) : Bool := ss58_chars.contains c

/-- Rust `char::is_ascii_digit`: code point in the ASCII range of 0-9 (48..=57). -/
def is_ascii_digit (c : Char) : Bool := decide (48 ≤ c.toNat ∧ c.toNat ≤ 57)

/-- Rust `char::is_ascii_alphabetic`: ASCII A-Z (65..=90) or a-z (97..=122). -/
def is_ascii_alphabetic (c : Char) : Bool :=
  decide ((65 ≤ c.toNat ∧ c.toNat ≤ 90) ∨ (97 ≤ c.toNat ∧ c.toNat ≤ 122))

/-- `count_digits` from src/main.rs: number of ASCII digits in the string. -/
def count_digits (string : List Char) : Nat := (string.filter is_ascii_digit).length

/-- `count_letters` from src/main.rs: number of ASCII letters in the string. -/
def count_letters (string : List Char) : Nat := (string.filter is_ascii_alphabetic).length

/-- The `Matcher` struct from src/main.rs.  `addr_type` is a `u8` in Rust;
range constraints are enforced by `main`, not by the type, so `Nat` here. -/
structure Matcher where
  addr_type : Nat
  startswith : List Char
  endswith : List Char
  contains : List Char
  digits : Option Nat
  letters : Option Nat

/-- `Matcher::match_` from src/main.rs: the sequence of early-return checks,
in source order (substring, then starts-with, then ends-with, then the two
optional count thresholds). -/
def Matcher.match_ (m : Matcher) (candidate : List Char) : Bool :=
  if !(decide (m.contains <:+: candidate)) then false
  else if !(m.startswith.isPrefixOf candidate) then false
  else if !(m.endswith.isSuffixOf candidate) then false
  else if m.digits.any fun digits => decide (count_digits candidate < digits) then false
  else if m.letters.any fun letters => decide (count_letters candidate < letters) then false
  else true

/-- The Kusama first-character table from `Matcher::validate` in src/main.rs. -/
def kusama_addr_first_chars : List Char := ['C', 'D', 'F', 'G', 'H', 'J']

/-- `Matcher::validate` from src/main.rs: the SS58-alphabet check on the three
literal strings, then the first-character rules for address types 0, 2 and 42
when `startswith` is non-empty. -/
def Matcher.validate (m : Matcher) : Except String Unit :=
  if !(m.startswith.all is_valid_ss58_char)
      || !(m.endswith.all is_valid_ss58_char)
      || !(m.contains.all is_valid_ss58_char) then
    .error "Error: A provided matcher contains SS58 incompatible characters"
  else
    match m.startswith with
    | [] => .ok ()
    | first_char :: _ =>
      if m.addr_type == 0 && first_char != '1' then
        .error "Error: Polkadot mainnet address must start with 1. Adjust --startswith"
      else if m.addr_type == 2 && !(kusama_addr_first_chars.contains first_char) then
        .error "Error: Kusama address must start with one of C, D, F, G, H, J. Adjust --startswith"
      else if m.addr_type == 42 && first_char != '5' then
        .error "Error: Generic Substrate address must start with 5. Adjust --startswith"
      else .ok ()

/-- C1: `Matcher.match_ a` is true iff `a` contains `contains`, starts with
`startswith`, ends with `endswith`, and meets each optional count threshold;
a `none` threshold imposes no constraint. -/
theorem match_iff_clauses (m : Matcher) (a : List Char) :
    m.match_ a = true ↔
      (m.contains <:+: a ∧ m.startswith <+: a ∧ m.endswith <:+ a ∧
        (∀ d, m.digits = some d → d ≤ count_digits a) ∧
        (∀ l, m.letters = some l → l ≤ count_letters a)) := by
  cases hd : m.digits <;> cases hl : m.letters <;>
    simp [Matcher.match_, hd, hl, Nat.not_lt, and_assoc]

/-- C3: any character outside the SS58 alphabet occurring in `startswith`,
`endswith` or `contains` makes `validate` return the incompatible-characters
error. -/
theorem validate_rejects_invalid_chars (m : Matcher) (c : Char)
    (hc : is_valid_ss58_char c = false)
    (hmem : c ∈ m.startswith ∨ c ∈ m.endswith ∨ c ∈ m.contains) :
    m.validate = .error "Error: A provided matcher contains SS58 incompatible characters" := by
  unfold Matcher.validate
  rw [if_pos]
  simp only [Bool.or_eq_true, Bool.not_eq_true', List.all_eq_false]
  rcases hmem with h | h | h
  · exact Or.inl (Or.inl ⟨c, h, by simp [hc]⟩)
  · exact Or.inl (Or.inr ⟨c, h, by simp [hc]⟩)
  · exact Or.inr ⟨c, h, by simp [hc]⟩

/-- C3 witness. -/
theorem validate_rejects_invalid_chars_witness :
    (Matcher.mk 0 [] [] ['0'] none none).validate =
      .error "Error: A provided matcher contains SS58 incompatible characters" :=
  validate_rejects_invalid_chars _ '0' (by decide) (Or.inr (Or.inr (by decide)))

/-- C4: with `addr_type = 0` a `startswith` beginning with the character 2 is
rejected and one beginning with the character 1 (with all characters in the
alphabet) is accepted; with `addr_type = 42` a non-empty `startswith` whose
first character is not the character 5 is rejected; an empty `startswith` is
never rejected by the first-character rule for any `addr_type`. -/
theorem validate_first_char_rules :
    (∀ m : Matcher, m.addr_type = 0 → m.startswith.head? = some '2' →
        ∃ msg, m.validate = .error msg) ∧
    (∀ m : Matcher, m.addr_type = 0 → m.startswith.head? = some '1' →
        m.startswith.all is_valid_ss58_char = true →
        m.endswith.all is_valid_ss58_char = true →
        m.contains.all is_valid_ss58_char = true →
        m.validate = .ok ()) ∧
    (∀ m : Matcher, m.addr_type = 42 → ∀ c rest, m.startswith = c :: rest → c ≠ '5' →
        ∃ msg, m.validate = .error msg) ∧
    (∀ m : Matcher, m.startswith = [] →
        m.endswith.all is_valid_ss58_char = true →
        m.contains.all is_valid_ss58_char = true →
        m.validate = .ok ()) := by
  refine ⟨?_, ?_, ?_, ?_⟩
  · intro m ht hh
    obtain ⟨rest, hs⟩ : ∃ rest, m.startswith = '2' :: rest := by
      cases h : m.startswith with
      | nil => rw [h] at hh; simp at hh
      | cons a as => rw [h] at hh; simp at hh; exact ⟨as, by rw [hh]⟩
    unfold Matcher.validate
    by_cases hcond : (!(m.startswith.all is_valid_ss58_char)
        || !(m.endswith.all is_valid_ss58_char)
        || !(m.contains.all is_valid_ss58_char)) = true
    · rw [if_pos hcond]; exact ⟨_, rfl⟩
    · rw [if_neg hcond, hs]
      simp [ht]
  · intro m ht hh hs he hc
    obtain ⟨rest, hs1⟩ : ∃ rest, m.startswith = '1' :: rest := by
      cases h : m.startswith with
      | nil => rw [h] at hh; simp at hh
      | cons a as => rw [h] at hh; simp at hh; exact ⟨as, by rw [hh]⟩
    unfold Matcher.validate
    rw [if_neg (by simp [hs, he, hc]), hs1]
    simp [ht]
  · intro m ht c rest hs hc
    unfold Matcher.validate
    by_cases hcond : (!(m.startswith.all is_valid_ss58_char)
        || !(m.endswith.all is_valid_ss58_char)
        || !(m.contains.all is_valid_ss58_char)) = true
    · rw [if_pos hcond]; exact ⟨_, rfl⟩
    · rw [if_neg hcond, hs]
      refine ⟨"Error: Generic Substrate address must start with 5. Adjust --startswith", ?_⟩
      simp [ht, hc]
  · intro m hs he hc
    unfold Matcher.validate
    rw [if_neg (by simp [hs, he, hc]), hs]

/-- C4 witness. -/
theorem validate_first_char_rules_witness :
    (∃ msg, (Matcher.mk 0 ['2'] [] [] none none).validate = .error msg) ∧
    (Matcher.mk 0 ['1'] [] [] none none).validate = .ok () ∧
    (∃ msg, (Matcher.mk 42 ['A'] [] [] none none).validate = .error msg) ∧
    (Matcher.mk 7 [] [] [] none none).validate = .ok () :=
  ⟨validate_first_char_rules.1 _ rfl (by decide),
   validate_first_char_rules.2.1 _ rfl (by decide) (by decide) (by decide) (by decide),
   validate_first_char_rules.2.2.1 _ rfl 'A' [] rfl (by decide),
   validate_first_char_rules.2.2.2 _ rfl (by decide) (by decide)⟩

/-- C10: for `addr_type = 2` (Kusama) and a non-empty `startswith`, `validate`
errors whenever the first character is outside the set C, D, F, G, H, J; and
when all characters are in the SS58 alphabet, acceptance is exactly membership
of the first character in that six-element set. -/
theorem validate_kusama_first_char_set :
    (∀ (m : Matcher) (c : Char) (rest : List Char), m.addr_type = 2 →
        m.startswith = c :: rest → kusama_addr_first_chars.contains c = false →
        ∃ msg, m.validate = .error msg) ∧
    (∀ (m : Matcher) (c : Char) (rest : List Char), m.addr_type = 2 →
        m.startswith = c :: rest →
        m.startswith.all is_valid_ss58_char = true →
        m.endswith.all is_valid_ss58_char = true →
        m.contains.all is_valid_ss58_char = true →
        (m.validate = .ok () ↔ c ∈ kusama_addr_first_chars)) := by
  constructor
  · intro m c rest ht hs hk
    unfold Matcher.validate
    by_cases hcond : (!(m.startswith.all is_valid_ss58_char)
        || !(m.endswith.all is_valid_ss58_char)
        || !(m.contains.all is_valid_ss58_char)) = true
    · rw [if_pos hcond]; exact ⟨_, rfl⟩
    · rw [if_neg hcond, hs]
      refine ⟨"Error: Kusama address must start with one of C, D, F, G, H, J. Adjust --startswith",
        ?_⟩
      simp [ht, hk]
      simpa using hk
  · intro m c rest ht hs hsv he hc
    unfold Matcher.validate
    rw [if_neg (by simp [hsv, he, hc]), hs]
    simp only [ht]
    by_cases hk : kusama_addr_first_chars.contains c = true
    · have hmem : c ∈ kusama_addr_first_chars := by simpa using hk
      simp [hk, hmem]
    · have hmem : c ∉ kusama_addr_first_chars := by simpa using hk
      simp [hk, hmem]

/-- C10 witness. -/
theorem validate_kusama_first_char_set_witness :
    (∃ msg, (Matcher.mk 2 ['E'] [] [] none none).validate = .error msg) ∧
    (Matcher.mk 2 ['D'] [] [] none none).validate = .ok () :=
  ⟨validate_kusama_first_char_set.1 _ 'E' [] rfl rfl (by decide),
   (validate_kusama_first_char_set.2 _ 'D' [] rfl rfl (by decide) (by decide)
      (by decide)).mpr (by decide)⟩

/-- The `Wallet` struct from src/main.rs.  Key material is opaque byte
sequences; only `address` is inspected by the search engine. -/
structure Wallet where
  mnemonic_phrase : List Char
  private_key : List Nat
  public_key : List Nat
  address : List Char
  deriving DecidableEq

/-- `report_threshold` in `generate_matching_wallet`: report the attempt count
to the main thread after this many attempts. -/
def report_threshold : Nat := 1000

/-- Result of the non-blocking `kill_pill.try_recv()` in the worker loop:
`Ok(())`, `Err(TryRecvError::Disconnected)`, or `Err(TryRecvError::Empty)`. -/
inductive PollResult
  | sig
  | disconnected
  | empty
  deriving DecidableEq

/-- How a run of the worker loop ends.  `exited` is the `break` out of the
loop: the wallets sent on the match channel, the batches sent on the attempt
count channel, the unreported remainder (discarded, never sent) and the number
of completed loop iterations (= candidates generated = polls consumed).
`panicked` is a failed `unwrap` on a send.  `outOfInput` means the modelled
oracle streams ran out before the loop ended. -/
inductive WorkerOutcome
  | exited (sent : List Wallet) (counts : List Nat) (remainder : Nat) (iters : Nat)
  | panicked (msg : String)
  | outOfInput
  deriving DecidableEq

/-- `generate_matching_wallet` from src/main.rs, the worker thread body.

The opaque wallet generation is an oracle: the `List Wallet` argument is the
stream of wallets `Wallet::new` returns, one consumed per loop iteration.  The
`List PollResult` argument is the stream of `kill_pill.try_recv()` results, one
consumed per iteration, at the end of the iteration (after generate, test and
report), exactly as in the source.  `match_sink_open` / `count_sink_open` say
whether `tx.send` / `attempt_count_tx.send` would succeed; a failed send is an
`unwrap` panic.  The `Nat` is `unreported_attempts`; the trailing accumulators
are the sends so far (most recent first) and the completed iteration count. -/
def generate_matching_wallet (matcher : Matcher) (match_sink_open count_sink_open : Bool) :
    Nat → List Wallet → List PollResult → List Wallet → List Nat → Nat → WorkerOutcome
  | _, [], _, _, _, _ => .outOfInput
  | u, w :: ws, polls, sent, counts, iters =>
    if matcher.match_ w.address = true ∧ match_sink_open = false then
      .panicked "worker: wallet send failed"
    else
      let sent2 := if matcher.match_ w.address = true then w :: sent else sent
      let u2 := u + 1
      if report_threshold ≤ u2 ∧ count_sink_open = false then
        .panicked "worker: attempt count send failed"
      else
        let counts2 := if report_threshold ≤ u2 then u2 :: counts else counts
        let u3 := if report_threshold ≤ u2 then 0 else u2
        match polls with
        | [] => .outOfInput
        | .empty :: ps =>
          generate_matching_wallet matcher match_sink_open count_sink_open
            u3 ws ps sent2 counts2 (iters + 1)
        | _ :: _ => .exited sent2.reverse counts2.reverse u3 (iters + 1)

/-- C6 helper: a worker iteration whose wallet matches panics at once when the
match sink is closed, whatever the rest of its state and input streams. -/
theorem worker_send_fail_fatal (matcher : Matcher) (co : Bool) (u : Nat) (w : Wallet)
    (ws : List Wallet) (polls : List PollResult) (sent : List Wallet) (counts : List Nat)
    (iters : Nat) (hm : matcher.match_ w.address = true) :
    generate_matching_wallet matcher false co u (w :: ws) polls sent counts iters =
      .panicked "worker: wallet send failed" := by
  unfold generate_matching_wallet
  rw [if_pos ⟨hm, rfl⟩]

/-- Helper: a full worker run whose attempt count stays below the report
threshold and whose first non-empty poll result arrives at poll index `k`
(with `k + 1` wallets available from the generation oracle) exits after
exactly `k + 1` iterations, sending exactly the matching wallets and no
attempt-count batch. -/
theorem worker_no_flush_run (matcher : Matcher) (k : Nat) :
    ∀ (u iters : Nat) (wallets : List Wallet) (q : PollResult) (qs : List PollResult)
      (sent : List Wallet) (counts : List Nat),
      wallets.length = k + 1 → q ≠ .empty → u + (k + 1) < report_threshold →
      generate_matching_wallet matcher true true u wallets
          (List.replicate k .empty ++ q :: qs) sent counts iters =
        .exited (sent.reverse ++ wallets.filter fun w => matcher.match_ w.address)
          counts.reverse (u + (k + 1)) (iters + (k + 1)) := by
  induction k with
  | zero =>
    intro u iters wallets q qs sent counts hlen hq hu
    obtain ⟨w, hw⟩ : ∃ w, wallets = [w] := by
      cases wallets with
      | nil => simp at hlen
      | cons a as =>
        cases as with
        | nil => exact ⟨a, rfl⟩
        | cons b bs => simp at hlen
    subst hw
    have hthresh : ¬ report_threshold ≤ u + 1 := by omega
    unfold generate_matching_wallet
    rw [if_neg (by simp), if_neg (by simp)]
    simp only [List.replicate, List.nil_append, if_neg hthresh]
    cases q with
    | empty => exact absurd rfl hq
    | sig =>
      by_cases hm : matcher.match_ w.address = true <;> simp [hm]
    | disconnected =>
      by_cases hm : matcher.match_ w.address = true <;> simp [hm]
  | succ k ih =>
    intro u iters wallets q qs sent counts hlen hq hu
    obtain ⟨w, ws, hw⟩ : ∃ w ws, wallets = w :: ws := by
      cases wallets with
      | nil => simp at hlen
      | cons a as => exact ⟨a, as, rfl⟩
    subst hw
    have hlen' : ws.length = k + 1 := by simpa using hlen
    have hthresh : ¬ report_threshold ≤ u + 1 := by omega
    unfold generate_matching_wallet
    rw [if_neg (by simp), if_neg (by simp)]
    simp only [List.replicate, List.cons_append, if_neg hthresh]
    rw [ih (u + 1) (iters + 1) ws q qs _ counts hlen' hq (by omega)]
    by_cases hm : matcher.match_ w.address = true <;> simp [hm] <;> omega

/-- Helper: every wallet a worker run reports on the match channel satisfies
the matcher (workers only forward candidates that pass `Matcher.match_`). -/
theorem worker_sent_all_match (matcher : Matcher) (mo co : Bool) :
    ∀ (wallets : List Wallet) (u iters : Nat) (polls : List PollResult)
      (sent s : List Wallet) (counts c : List Nat) (r i : Nat),
      (∀ x ∈ sent, matcher.match_ x.address = true) →
      generate_matching_wallet matcher mo co u wallets polls sent counts iters =
        .exited s c r i →
      ∀ x ∈ s, matcher.match_ x.address = true := by
  intro wallets
  induction wallets with
  | nil =>
    intro u iters polls sent s counts c r i hsent h
    unfold generate_matching_wallet at h
    simp at h
  | cons w ws ih =>
    intro u iters polls sent s counts c r i hsent h
    have hsent2 : ∀ x ∈ (if matcher.match_ w.address = true then w :: sent else sent),
        matcher.match_ x.address = true := by
      by_cases hm : matcher.match_ w.address = true
      · intro x hx
        rw [if_pos hm] at hx
        rcases List.mem_cons.mp hx with rfl | hx
        · exact hm
        · exact hsent x hx
      · intro x hx
        rw [if_neg hm] at hx
        exact hsent x hx
    unfold generate_matching_wallet at h
    by_cases h1 : matcher.match_ w.address = true ∧ mo = false
    · rw [if_pos h1] at h
      simp at h
    · rw [if_neg h1] at h
      simp only at h
      by_cases h2 : report_threshold ≤ u + 1 ∧ co = false
      · rw [if_pos h2] at h
        simp at h
      · rw [if_neg h2] at h
        cases polls with
        | nil => simp at h
        | cons p ps =>
          cases p with
          | empty => exact ih _ _ _ _ _ _ _ _ _ hsent2 h
          | sig =>
            simp only [WorkerOutcome.exited.injEq] at h
            obtain ⟨hs, -, -, -⟩ := h
            intro x hx
            rw [← hs] at hx
            exact hsent2 x (List.mem_reverse.mp hx)
          | disconnected =>
            simp only [WorkerOutcome.exited.injEq] at h
            obtain ⟨hs, -, -, -⟩ := h
            intro x hx
            rw [← hs] at hx
            exact hsent2 x (List.mem_reverse.mp hx)

/-- C7: the worker polls its cancellation channel once per iteration, after
the generate/test/report steps; when the first non-empty poll result (a signal
or a closed channel) arrives at poll index `k`, the loop runs exactly `k + 1`
iterations — so at most one extra candidate is generated after cancellation is
observable — and exits, discarding the unreported attempt-count remainder
(`k + 1` attempts, never sent while below the report threshold). -/
theorem worker_cancellation_prompt (matcher : Matcher) (k : Nat) (wallets : List Wallet)
    (q : PollResult) (qs : List PollResult)
    (hlen : wallets.length = k + 1) (hq : q ≠ .empty) (hk : k + 1 < report_threshold) :
    generate_matching_wallet matcher true true 0 wallets
        (List.replicate k .empty ++ q :: qs) [] [] 0 =
      .exited (wallets.filter fun w => matcher.match_ w.address) [] (k + 1) (k + 1) := by
  have h := worker_no_flush_run matcher k 0 0 wallets q qs [] [] hlen hq (by omega)
  simpa using h

/-- C7 witness: a three-iteration run with the cancellation signal visible at
poll index 2. -/
theorem worker_cancellation_prompt_witness :
    generate_matching_wallet (Matcher.mk 0 [] [] [] none none) true true 0
        [Wallet.mk [] [] [] ['a'], Wallet.mk [] [] [] ['b'], Wallet.mk [] [] [] ['c']]
        (List.replicate 2 .empty ++ PollResult.sig :: []) [] [] 0 =
      .exited ([Wallet.mk [] [] [] ['a'], Wallet.mk [] [] [] ['b'],
          Wallet.mk [] [] [] ['c']].filter
          fun w => (Matcher.mk 0 [] [] [] none none).match_ w.address) [] 3 3 :=
  worker_cancellation_prompt (Matcher.mk 0 [] [] [] none none) 2
    [Wallet.mk [] [] [] ['a'], Wallet.mk [] [] [] ['b'], Wallet.mk [] [] [] ['c']]
    PollResult.sig [] (by decide) (by decide) (by decide)

/-- One observation of `rx.recv_timeout(Duration::from_secs(3))` in the main
result loop: a received wallet, a timeout tick, or a disconnected channel. -/
inductive AggEvent
  | gotWallet (w : Wallet)
  | timeout
  | disconnected
  deriving DecidableEq

/-- How the aggregator (main result loop) ends: the target reached with the
accepted wallets in arrival order, a panic on a disconnected wallet channel,
or the modelled event stream ran out while the loop still waited. -/
inductive AggOutcome
  | finished (emitted : List Wallet)
  | panicked (msg : String)
  | starved
  deriving DecidableEq

/-- The `while matches_found < wallet_count` result loop of `main` in
src/main.rs.  `events` is the stream of receive results in arrival order;
`matches_found` and `emitted` (most recent first) accumulate accepted
matches.  Draining the attempt-count channel and the verbose pace report do
not affect match acceptance and are modelled separately
(`verbose_pace_report`). -/
def agg_loop (wallet_count : Nat) : Nat → List Wallet → List AggEvent → AggOutcome
  | matches_found, emitted, [] =>
    if wallet_count ≤ matches_found then .finished emitted.reverse else .starved
  | matches_found, emitted, e :: rest =>
    if wallet_count ≤ matches_found then .finished emitted.reverse
    else
      match e with
      | .gotWallet w => agg_loop wallet_count (matches_found + 1) (w :: emitted) rest
      | .timeout => agg_loop wallet_count matches_found emitted rest
      | .disconnected => .panicked "wallet tx disconnected"

/-- C6: a closed match channel is fatal on both sides.  A worker whose send of
a found wallet fails panics at once (never silently dropping the match), and
the aggregator that observes the wallet channel disconnected while still
collecting panics; neither side continues past that point. -/
theorem channel_disconnect_fatal :
    (∀ (matcher : Matcher) (co : Bool) (u : Nat) (w : Wallet) (ws : List Wallet)
        (polls : List PollResult) (sent : List Wallet) (counts : List Nat) (iters : Nat),
      matcher.match_ w.address = true →
      generate_matching_wallet matcher false co u (w :: ws) polls sent counts iters =
        .panicked "worker: wallet send failed") ∧
    (∀ (wallet_count matches_found : Nat) (emitted : List Wallet) (rest : List AggEvent),
      matches_found < wallet_count →
      agg_loop wallet_count matches_found emitted (.disconnected :: rest) =
        .panicked "wallet tx disconnected") := by
  constructor
  · intro matcher co u w ws polls sent counts iters hm
    exact worker_send_fail_fatal matcher co u w ws polls sent counts iters hm
  · intro wallet_count matches_found emitted rest hlt
    unfold agg_loop
    rw [if_neg (by omega)]

/-- C6 witness: a matching wallet hitting a closed sink, and the aggregator
seeing a disconnected channel with the target not yet reached. -/
theorem channel_disconnect_fatal_witness :
    generate_matching_wallet (Matcher.mk 0 [] [] [] none none) false true 0
        [Wallet.mk [] [] [] ['a']] [] [] [] 0 = .panicked "worker: wallet send failed" ∧
    agg_loop 1 0 [] [AggEvent.disconnected] = .panicked "wallet tx disconnected" :=
  ⟨channel_disconnect_fatal.1 (Matcher.mk 0 [] [] [] none none) true 0
      (Wallet.mk [] [] [] ['a']) [] [] [] [] 0 (by decide),
   channel_disconnect_fatal.2 1 0 [] [] (by decide)⟩

/-- The channel and thread handles `main` accumulates in its spawn loop: one
kill-pill sender per spawned worker (channels identified by allocation order)
and one join handle per worker. -/
structure Pool where
  kill_pills : List Nat
  children : List Nat
  deriving DecidableEq

/-- The spawn loop in `main`: each of the `cpu_count` iterations creates a new
private kill-pill channel, spawns one worker thread, and pushes the sender and
the join handle. -/
def spawn_pool (cpu_count : Nat) : Pool :=
  (List.range cpu_count).foldl
    (fun pool idx => Pool.mk (pool.kill_pills ++ [idx]) (pool.children ++ [idx]))
    (Pool.mk [] [])

/-- One step of the teardown at the end of `main`: a send on a kill-pill
channel, or a join of a worker thread. -/
inductive TeardownAction
  | sendPill (chan : Nat)
  | joinChild (tid : Nat)
  deriving DecidableEq

/-- The teardown at the end of `main`: send a cancellation signal on every
kill pill, then join every child thread. -/
def teardown (pool : Pool) : List TeardownAction :=
  pool.kill_pills.map TeardownAction.sendPill ++ pool.children.map TeardownAction.joinChild

/-- Helper: the spawn loop yields the pills and handles in allocation order. -/
theorem spawn_pool_eq (n : Nat) : spawn_pool n = Pool.mk (List.range n) (List.range n) := by
  induction n with
  | zero => rfl
  | succ n ih =>
    unfold spawn_pool at ih ⊢
    rw [List.range_succ, List.foldl_append, ih]
    rfl

/-- C8: shutdown sends exactly one cancellation signal per worker, each on that
worker's own private channel (`n` pairwise-distinct channels for `n` workers,
no shared broadcast), and the teardown joins every one of the `n` worker
threads, with every send preceding every join. -/
theorem pool_shutdown_per_worker (n : Nat) :
    (spawn_pool n).kill_pills.length = n ∧
    (spawn_pool n).kill_pills.Nodup ∧
    (spawn_pool n).children.length = n ∧
    teardown (spawn_pool n) =
      ((spawn_pool n).kill_pills.map TeardownAction.sendPill ++
        (spawn_pool n).children.map TeardownAction.joinChild) ∧
    (∀ chan ∈ (spawn_pool n).kill_pills,
      (teardown (spawn_pool n)).count (TeardownAction.sendPill chan) = 1) := by
  rw [spawn_pool_eq]
  refine ⟨by simp, by simp [List.nodup_range], by simp, rfl, ?_⟩
  intro chan hchan
  have hinj : Function.Injective TeardownAction.sendPill := by
    intro a b hab
    simpa using hab
  have h0 : (List.map TeardownAction.joinChild (List.range n)).count
      (TeardownAction.sendPill chan) = 0 :=
    List.count_eq_zero_of_not_mem (by simp)
  have h1 : (List.map TeardownAction.sendPill (List.range n)).count
      (TeardownAction.sendPill chan) = 1 := by
    rw [List.count_map_of_injective _ _ hinj]
    exact List.count_eq_one_of_mem (List.nodup_range n) (by simpa using hchan)
  simp [teardown, List.count_append, h0, h1]

/-- The wallets carried by a stream of receive results, in arrival order. -/
def event_wallets : List AggEvent → List Wallet
  | [] => []
  | .gotWallet w :: rest => w :: event_wallets rest
  | .timeout :: rest => event_wallets rest
  | .disconnected :: rest => event_wallets rest

/-- How the tail of `main` ends: the accepted wallets together with the
teardown actions performed before returning, or a propagated aggregator
panic or starvation. -/
inductive ControlOutcome
  | done (emitted : List Wallet) (actions : List TeardownAction)
  | panicked (msg : String)
  | starved
  deriving DecidableEq

/-- The tail of `main` after spawning: run the result loop, and when the
target is reached run the teardown (send every kill pill, then join every
child). -/
def main_control (wallet_count : Nat) (pool : Pool) (events : List AggEvent) :
    ControlOutcome :=
  match agg_loop wallet_count 0 [] events with
  | .finished ws => .done ws (teardown pool)
  | .panicked msg => .panicked msg
  | .starved => .starved

/-- Helper: while enough wallet events remain and no disconnect occurs, the
result loop finishes with exactly the first `wallet_count - matches_found`
received wallets appended to its accumulator. -/
theorem agg_loop_finishes (wallet_count : Nat) :
    ∀ (events : List AggEvent) (matches_found : Nat) (emitted : List Wallet),
      AggEvent.disconnected ∉ events →
      wallet_count ≤ matches_found + (event_wallets events).length →
      agg_loop wallet_count matches_found emitted events =
        .finished (emitted.reverse ++
          (event_wallets events).take (wallet_count - matches_found)) := by
  intro events
  induction events with
  | nil =>
    intro matches_found emitted hdisc hle
    unfold agg_loop
    rw [if_pos (by simpa [event_wallets] using hle)]
    simp [event_wallets]
  | cons e rest ih =>
    intro matches_found emitted hdisc hle
    by_cases hdone : wallet_count ≤ matches_found
    · unfold agg_loop
      rw [if_pos hdone]
      simp [Nat.sub_eq_zero_of_le hdone]
    · have hrest : AggEvent.disconnected ∉ rest := fun h => hdisc (List.mem_cons_of_mem _ h)
      cases e with
      | gotWallet w =>
        unfold agg_loop
        rw [if_neg hdone]
        show agg_loop wallet_count (matches_found + 1) (w :: emitted) rest = _
        rw [ih (matches_found + 1) (w :: emitted) hrest
          (by simp [event_wallets] at hle ⊢; omega)]
        have hsub : wallet_count - matches_found = (wallet_count - (matches_found + 1)) + 1 := by
          omega
        simp [event_wallets, hsub]
      | timeout =>
        unfold agg_loop
        rw [if_neg hdone]
        show agg_loop wallet_count matches_found emitted rest = _
        rw [ih matches_found emitted hrest (by simpa [event_wallets] using hle)]
        simp [event_wallets]
      | disconnected => exact absurd (List.mem_cons_self _ _) hdisc

/-- C2: with a stream holding at least `K` received wallets and no disconnect,
the engine accepts and emits exactly the first `K` wallets from the match
channel (`K = 0` included), every emitted wallet satisfies the matcher
whenever every channel wallet does — which worker runs guarantee, since a
worker only sends wallets passing `Matcher.match_` — and after the `K`-th
match the aggregator performs the pool teardown and returns. -/
theorem engine_yields_exactly_target (K : Nat) (pool : Pool) (m : Matcher)
    (events : List AggEvent)
    (hdisc : AggEvent.disconnected ∉ events)
    (hcount : K ≤ (event_wallets events).length)
    (hmatch : ∀ w ∈ event_wallets events, m.match_ w.address = true) :
    main_control K pool events = .done ((event_wallets events).take K) (teardown pool) ∧
    ((event_wallets events).take K).length = K ∧
    (∀ w ∈ (event_wallets events).take K, m.match_ w.address = true) ∧
    (∀ (mo co : Bool) (u iters : Nat) (wallets : List Wallet) (polls : List PollResult)
        (counts c : List Nat) (s : List Wallet) (r i : Nat),
      generate_matching_wallet m mo co u wallets polls [] counts iters = .exited s c r i →
      ∀ w ∈ s, m.match_ w.address = true) := by
  have h := agg_loop_finishes K events 0 [] hdisc (by omega)
  refine ⟨?_, ?_, ?_, ?_⟩
  · unfold main_control
    rw [h]
    simp
  · simp [List.length_take]
    omega
  · intro w hw
    exact hmatch w (List.take_subset _ _ hw)
  · intro mo co u iters wallets polls counts c s r i hrun
    exact worker_sent_all_match m mo co wallets u iters polls [] s counts c r i
      (by simp) hrun

/-- C2 witness: target 2, three wallet events with one timeout interleaved. -/
theorem engine_yields_exactly_target_witness :
    main_control 2 (spawn_pool 2)
        [AggEvent.gotWallet (Wallet.mk [] [] [] ['a']), AggEvent.timeout,
         AggEvent.gotWallet (Wallet.mk [] [] [] ['b']),
         AggEvent.gotWallet (Wallet.mk [] [] [] ['c'])] =
      .done ((event_wallets
          [AggEvent.gotWallet (Wallet.mk [] [] [] ['a']), AggEvent.timeout,
           AggEvent.gotWallet (Wallet.mk [] [] [] ['b']),
           AggEvent.gotWallet (Wallet.mk [] [] [] ['c'])]).take 2)
        (teardown (spawn_pool 2)) :=
  (engine_yields_exactly_target 2 (spawn_pool 2) (Matcher.mk 0 [] [] [] none none)
    [AggEvent.gotWallet (Wallet.mk [] [] [] ['a']), AggEvent.timeout,
     AggEvent.gotWallet (Wallet.mk [] [] [] ['b']),
     AggEvent.gotWallet (Wallet.mk [] [] [] ['c'])]
    (by decide) (by decide) (by decide)).1

/-- `start_time.elapsed()` returning `none` models the `Err` branch of
`SystemTime::elapsed` (which `main` silently skips); `some s` an elapsed
duration of `s` whole seconds. -/
def checked_div (a b : Nat) : Except String Nat :=
  if b = 0 then .error "attempt to divide by zero" else .ok (a / b)

/-- The verbose pace report of the main result loop: print nothing unless
verbose; skip a failed clock read; divide only under the `elapsed_secs != 0`
guard.  The division is `checked_div` so that an unguarded division by zero
would surface as an error value. -/
def verbose_pace_report (verbose : Bool) (total_attempts : Nat) (elapsed : Option Nat) :
    Option (Except String Nat) :=
  if verbose = true then
    match elapsed with
    | none => none
    | some elapsed_secs =>
      if elapsed_secs ≠ 0 then some (checked_div total_attempts elapsed_secs) else none
  else none

/-- C9: the pace report never divides by zero: at zero elapsed seconds nothing
is printed, and no input ever produces a division-by-zero error, since the
division happens only under the `elapsed_secs != 0` guard. -/
theorem pace_report_no_div_by_zero (verbose : Bool) (total_attempts : Nat)
    (elapsed : Option Nat) :
    verbose_pace_report verbose total_attempts (some 0) = none ∧
    (∀ msg, verbose_pace_report verbose total_attempts elapsed ≠ some (.error msg)) ∧
    (∀ s, s ≠ 0 → verbose_pace_report true total_attempts (some s) =
      some (.ok (total_attempts / s))) := by
  refine ⟨?_, ?_, ?_⟩
  · cases verbose <;> simp [verbose_pace_report]
  · intro msg
    cases verbose <;> cases elapsed <;> simp [verbose_pace_report]
    rename_i s
    by_cases hs : s = 0 <;> simp [hs, checked_div]
  · intro s hs
    simp [verbose_pace_report, hs, checked_div]

/-- C9 witness. -/
theorem pace_report_no_div_by_zero_witness :
    verbose_pace_report true 500 (some 0) = none ∧
    verbose_pace_report true 500 (some 2) ≠ some (.error "attempt to divide by zero") ∧
    verbose_pace_report true 500 (some 2) = some (.ok 250) :=
  ⟨(pace_report_no_div_by_zero true 500 (some 2)).1,
   (pace_report_no_div_by_zero true 500 (some 2)).2.1 "attempt to divide by zero",
   (pace_report_no_div_by_zero true 500 (some 2)).2.2 2 (by decide)⟩

/-- The digit-count option handling in `main`: `none` = flag absent, `some
none` = present but not a valid integer (process exits), `some (some c)` =
parsed `c`, then bounds-checked against `count > 48`. -/
def parse_digit_count (arg : Option (Option Nat)) : Except String (Option Nat) :=
  match arg with
  | none => .ok none
  | some none => .error "Error: Digit count is not a valid integer"
  | some (some count) =>
    if 48 < count then .error "Error: Digit count must be in range [0, 48]"
    else .ok (some count)

/-- The letter-count option handling in `main`, same shape as the digits. -/
def parse_letter_count (arg : Option (Option Nat)) : Except String (Option Nat) :=
  match arg with
  | none => .ok none
  | some none => .error "Error: Letter count is not a valid integer"
  | some (some count) =>
    if 48 < count then .error "Error: Letter count must be in range [0, 48]"
    else .ok (some count)

/-- The configuration phase of `main`, in source order: parse the wallet
count (u32), CPU count (u8) and address type (u8) — `none` models a string
that does not parse at that width — check `addr_type > 127`, handle the digit
and letter count flags, then build the `Matcher` and validate it.  On success
it returns the wallet count, CPU count and matcher the search phase uses. -/
def main_config (wallet_count cpu_count addr_type : Option Nat)
    (digits_arg letters_arg : Option (Option Nat))
    (startswith endswith contains : List Char) : Except String (Nat × Nat × Matcher) :=
  match wallet_count with
  | none => .error "Error: Wallet count is not a 32-bit unsigned integer"
  | some wc =>
    match cpu_count with
    | none => .error "Error: CPU count is not an 8-bit unsigned integer"
    | some cc =>
      match addr_type with
      | none => .error "Error: Address type is not an 8-bit unsigned integer"
      | some t =>
        if 127 < t then .error "Error: Address type must be in range [0, 127]"
        else
          match parse_digit_count digits_arg with
          | .error msg => .error msg
          | .ok digit_count =>
            match parse_letter_count letters_arg with
            | .error msg => .error msg
            | .ok letter_count =>
              let matcher := Matcher.mk t startswith endswith contains
                digit_count letter_count
              match matcher.validate with
              | .error msg => .error msg
              | .ok _ => .ok (wc, cc, matcher)

/-- Outcome of the whole of `main`: a configuration error (reported on
stderr, exit code 1 — the constructor carries no pool and no search run), or
a full run with the spawned pool and the control-loop outcome. -/
inductive MainOutcome
  | configError (msg : String)
  | ran (matcher : Matcher) (pool : Pool) (outcome : ControlOutcome)

/-- `main` from src/main.rs end to end: configuration first; only on success
is the pool spawned and the search/aggregate phase run on the stream of
receive results. -/
def run_main (wallet_count cpu_count addr_type : Option Nat)
    (digits_arg letters_arg : Option (Option Nat))
    (startswith endswith contains : List Char)
    (events : List AggEvent) : MainOutcome :=
  match main_config wallet_count cpu_count addr_type digits_arg letters_arg
      startswith endswith contains with
  | .error msg => .configError msg
  | .ok (wc, cc, matcher) =>
    .ran matcher (spawn_pool cc) (main_control wc (spawn_pool cc) events)

/-- Helper: `validate` reads only the address type and the three literal
strings, never the optional count thresholds. -/
theorem validate_ignores_counts (t : Nat) (s e c : List Char) (d l : Option Nat) :
    (Matcher.mk t s e c d l).validate = (Matcher.mk t s e c none none).validate := rfl

/-- Helper: inverting a successful digit-count parse. -/
theorem parse_digit_count_ok {arg : Option (Option Nat)} {dc : Option Nat}
    (h : parse_digit_count arg = .ok dc) :
    arg ≠ some none ∧ ∀ d, arg = some (some d) → d ≤ 48 := by
  rcases arg with _ | arg
  · exact ⟨by simp, by simp⟩
  rcases arg with _ | d
  · simp [parse_digit_count] at h
  by_cases hd : 48 < d
  · simp [parse_digit_count, hd] at h
  refine ⟨by simp, ?_⟩
  intro d' hd'
  have : d = d' := by simpa using hd'
  omega

/-- Helper: inverting a successful letter-count parse. -/
theorem parse_letter_count_ok {arg : Option (Option Nat)} {lc : Option Nat}
    (h : parse_letter_count arg = .ok lc) :
    arg ≠ some none ∧ ∀ l, arg = some (some l) → l ≤ 48 := by
  rcases arg with _ | arg
  · exact ⟨by simp, by simp⟩
  rcases arg with _ | l
  · simp [parse_letter_count] at h
  by_cases hl : 48 < l
  · simp [parse_letter_count, hl] at h
  refine ⟨by simp, ?_⟩
  intro l' hl'
  have : l = l' := by simpa using hl'
  omega

/-- Helper: everything a successful configuration phase guarantees. -/
theorem main_config_ok_inv {wallet_count cpu_count addr_type : Option Nat}
    {digits_arg letters_arg : Option (Option Nat)}
    {startswith endswith contains : List Char} {v : Nat × Nat × Matcher}
    (h : main_config wallet_count cpu_count addr_type digits_arg letters_arg
      startswith endswith contains = .ok v) :
    ∃ t, addr_type = some t ∧ t ≤ 127 ∧
      digits_arg ≠ some none ∧ (∀ d, digits_arg = some (some d) → d ≤ 48) ∧
      letters_arg ≠ some none ∧ (∀ l, letters_arg = some (some l) → l ≤ 48) ∧
      (Matcher.mk t startswith endswith contains none none).validate = .ok () := by
  rcases wallet_count with _ | wc
  · simp [main_config] at h
  rcases cpu_count with _ | cc
  · simp [main_config] at h
  rcases addr_type with _ | t
  · simp [main_config] at h
  by_cases ht : 127 < t
  · simp [main_config, ht] at h
  simp only [main_config, if_neg ht] at h
  cases hpd : parse_digit_count digits_arg with
  | error msg => simp [hpd] at h
  | ok dc =>
    cases hpl : parse_letter_count letters_arg with
    | error msg => simp [hpd, hpl] at h
    | ok lc =>
      cases hv : (Matcher.mk t startswith endswith contains dc lc).validate with
      | error msg => simp [hpd, hpl, hv] at h
      | ok u =>
        obtain ⟨hd1, hd2⟩ := parse_digit_count_ok hpd
        obtain ⟨hl1, hl2⟩ := parse_letter_count_ok hpl
        exact ⟨t, rfl, by omega, hd1, hd2, hl1, hl2,
          by rw [← validate_ignores_counts t startswith endswith contains dc lc, hv]⟩

/-- C5: every configuration error — an address type that fails the u8 parse
or parses above 127, a digit or letter count above 48, or a `Matcher` that
`validate` rejects — makes `main` report a configuration error before any
worker is spawned: the outcome is a `configError` independent of the
candidate/event stream, carrying no pool and no search run. -/
theorem config_error_before_spawn
    (wallet_count cpu_count addr_type : Option Nat)
    (digits_arg letters_arg : Option (Option Nat))
    (startswith endswith contains : List Char)
    (hbad :
      (addr_type = none ∨ ∃ t, addr_type = some t ∧ 127 < t) ∨
      (digits_arg = some none ∨ ∃ d, digits_arg = some (some d) ∧ 48 < d) ∨
      (letters_arg = some none ∨ ∃ l, letters_arg = some (some l) ∧ 48 < l) ∨
      (∃ t msg, addr_type = some t ∧
        (Matcher.mk t startswith endswith contains none none).validate = .error msg)) :
    ∃ msg, ∀ events, run_main wallet_count cpu_count addr_type digits_arg letters_arg
        startswith endswith contains events = .configError msg := by
  cases hcfg : main_config wallet_count cpu_count addr_type digits_arg letters_arg
      startswith endswith contains with
  | error msg =>
    refine ⟨msg, fun events => ?_⟩
    unfold run_main
    rw [hcfg]
  | ok v =>
    exfalso
    obtain ⟨t, hat, ht, hdn, hdle, hln, hlle, hval⟩ := main_config_ok_inv hcfg
    rcases hbad with (h | ⟨t', h, ht'⟩) | (h | ⟨d, h, hd⟩) | (h | ⟨l, h, hl⟩) |
      ⟨t', msg, h, hv⟩
    · rw [h] at hat
      exact Option.noConfusion hat
    · rw [h] at hat
      have : t' = t := by simpa using hat
      omega
    · exact hdn h
    · have := hdle d h
      omega
    · exact hln h
    · have := hlle l h
      omega
    · rw [h] at hat
      have heq : t' = t := by simpa using hat
      rw [heq, hval] at hv
      exact Except.noConfusion hv

/-- C5 witness: an address type that parsed as 200 (outside [0, 127]). -/
theorem config_error_before_spawn_witness :
    ∃ msg, ∀ events, run_main (some 1) (some 1) (some 200) none none [] [] [] events =
      .configError msg :=
  config_error_before_spawn (some 1) (some 1) (some 200) none none [] [] []
    (Or.inl (Or.inr ⟨200, rfl, by decide⟩))

end Dotvanity
